import Mathlib

/-!
Verification development for the rpa-landuse-backend Authenticated Streaming
Query Gateway: a shallow embedding of the credential manager
(`app/api/v1/auth.py`), the quota ledger (`app/services/academic_user_service.py`),
the session store and streaming relay (`app/services/agent_service.py`) and the
gateway orchestration (`app/dependencies.py`, `app/api/v1/chat.py`),
together with theorems settling the specification claims.
-/

namespace App

/-! ## Python string model

Emails are manipulated with Python's `str.lower()` and `str.strip()`.
We model Python strings as lists of character codes (`List Nat`) so that
these operations are plain list functions. `pyLowerCode` mirrors ASCII
lowercasing, `pyIsSpace` the ASCII whitespace set stripped by `str.strip()`.
-/

abbrev PyStr := List Nat

/-- Character-code version of Python `str.lower` (ASCII range). -/
def pyLowerCode (n : Nat) : Nat :=
  if 65 ≤ n ∧ n ≤ 90 then n + 32 else n

/-- ASCII whitespace recognised by Python `str.strip()`. -/
def pyIsSpace (n : Nat) : Bool :=
  n == 32 || n == 9 || n == 10 || n == 13 || n == 11 || n == 12

/-- Python `s.lower()` on a code-point list. -/
def pyLower (s : PyStr) : PyStr := s.map pyLowerCode

/-- Python `s.strip()` on a code-point list: drop leading then trailing whitespace. -/
def pyStrip (s : PyStr) : PyStr :=
  (s.dropWhile pyIsSpace).rdropWhile pyIsSpace

/-- Python `email.lower().strip()`, the normalisation applied at the top of every
`AcademicUserService` operation. -/
def pyNormalize (s : PyStr) : PyStr := pyStrip (pyLower s)

/-- Embed a Lean string literal as a Python code-point string. -/
def pyCodes (s : String) : PyStr := s.data.map Char.toNat

/-! ## Quota Ledger: `AcademicUserService`

The `query_usage` table has primary key `(email, query_date)`; rows are
`{email, query_date, query_count}`. `academic_users` holds
`{email, created_at, last_access}`. Time is modelled as seconds since the
UTC epoch; Python's `date.today()` is the calendar day of the server-local
clock, i.e. of `now + tzOffset` where `tzOffset` is the server timezone
offset in seconds (`date.today()` is not a UTC date).
-/

structure UsageRow where
  email : PyStr
  day : Int
  count : Int
deriving DecidableEq, Repr

abbrev UsageTable := List UsageRow

def lookupUsage : UsageTable → PyStr → Int → Option Int
  | [], _, _ => none
  | r :: t, e, d => if r.email = e ∧ r.day = d then some r.count else lookupUsage t e d

/-- The SQL upsert `INSERT ... ON CONFLICT (email, query_date) DO UPDATE SET
query_count = query_count + 1`: update the matching row, or insert a fresh row
with count 1. -/
def upsertUsage : UsageTable → PyStr → Int → UsageTable
  | [], e, d => [⟨e, d, 1⟩]
  | r :: t, e, d =>
    if r.email = e ∧ r.day = d then ⟨r.email, r.day, r.count + 1⟩ :: t
    else r :: upsertUsage t e d

def secondsPerDay : Int := 86400

/-- The calendar day in UTC containing instant `now`. -/
def utcDay (now : Int) : Int := now.fdiv secondsPerDay

/-- Python `date.today()`: the calendar day of the server-local clock. -/
def pyToday (now tzOffset : Int) : Int := (now + tzOffset).fdiv secondsPerDay

/-- Embedding of `AcademicUserService.get_queries_remaining`: normalises the email, keys the
lookup on `date.today()` (the server-local day); no row means the full
`daily_limit`, otherwise `max(0, daily_limit - query_count)`. -/
def get_queries_remaining (daily_limit : Int) (usage : UsageTable) (email : PyStr)
    (now tzOffset : Int) : Int :=
  match lookupUsage usage (pyNormalize email) (pyToday now tzOffset) with
  | none => daily_limit
  | some c => max 0 (daily_limit - c)

/-- Embedding of `AcademicUserService.increment_usage`: upsert the `(email, today)` row, then
re-read the new count (1 if the row is somehow absent). Returns
`(new_count, updated table)`. -/
def increment_usage (usage : UsageTable) (email : PyStr) (now tzOffset : Int) :
    Int × UsageTable :=
  let t := upsertUsage usage (pyNormalize email) (pyToday now tzOffset)
  ((lookupUsage t (pyNormalize email) (pyToday now tzOffset)).getD 1, t)

/-- Embedding of `AcademicUserService.check_quota`: `(remaining > 0, remaining)`. -/
def check_quota (daily_limit : Int) (usage : UsageTable) (email : PyStr)
    (now tzOffset : Int) : Bool × Int :=
  let remaining := get_queries_remaining daily_limit usage email now tzOffset
  (decide (remaining > 0), remaining)

structure UserRow where
  email : PyStr
  created_at : Int
  last_access : Option Int
deriving DecidableEq, Repr

abbrev UserTable := List UserRow

def lookupUser : UserTable → PyStr → Option UserRow
  | [], _ => none
  | r :: t, e => if r.email = e then some r else lookupUser t e

/-- Embedding of `AcademicUserService.register_email`: normalise the email; if the user
exists, update `last_access` and return the stored record; otherwise insert a
fresh record. Returns `(returned user, updated table)`. -/
def register_email (users : UserTable) (email : PyStr) (now : Int) :
    UserRow × UserTable :=
  let e := pyNormalize email
  match lookupUser users e with
  | some r =>
    (⟨r.email, r.created_at, some now⟩,
      users.map fun u => if u.email = e then ⟨u.email, u.created_at, some now⟩ else u)
  | none => (⟨e, now, some now⟩, ⟨e, now, some now⟩ :: users)

/-- The `N`-fold application of `increment_usage` for one identity within one day. -/
def incrementNTimes (usage : UsageTable) (email : PyStr) (now tzOffset : Int) :
    Nat → UsageTable
  | 0 => usage
  | n + 1 => (increment_usage (incrementNTimes usage email now tzOffset n) email now tzOffset).2

/-! ## Credential Manager: `app/api/v1/auth.py`

JWT handling uses the PyJWT library (external collaborator): `jwt.decode`
first checks the HMAC signature, then validates the `exp` claim.
`ExpiredSignatureError` is a subclass of `InvalidTokenError`, so a handler
for `InvalidTokenError` also catches expiry. A token is modelled either as
malformed (undecodable) or as a payload signed with some secret; expiry
follows PyJWT: expired iff `exp < now`. -/

structure TokenPayload where
  type : String
  exp : Int
  email : Option PyStr := none
  tier : Option String := none
deriving DecidableEq, Repr

inductive Jwt where
  | malformed (raw : String)
  | signed (payload : TokenPayload) (secret : String)
deriving DecidableEq, Repr

inductive JwtResult where
  | ok (p : TokenPayload)
  | expired
  | invalid
deriving DecidableEq, Repr

/-- PyJWT `jwt.decode(token, secret, algorithms=["HS256"])`: signature mismatch
or malformed input raises `InvalidTokenError` (here `.invalid`); a valid
signature with `exp < now` raises `ExpiredSignatureError` (here `.expired`). -/
def jwt_decode (secret : String) (now : Int) : Jwt → JwtResult
  | .malformed _ => .invalid
  | .signed p s =>
    if s = secret then (if p.exp < now then .expired else .ok p) else .invalid

/-- Embedding of `verify_token(token, token_type)`: `False` on unconfigured secret; decode,
catching both `ExpiredSignatureError` and `InvalidTokenError` as `False`;
otherwise compare the `type` claim. Total — never raises to the caller. -/
def verify_token (secret : String) (now : Int) (tok : Jwt) (token_type : String) : Bool :=
  if secret = "" then false
  else
    match jwt_decode secret now tok with
    | .ok p => p.type == token_type
    | .expired => false
    | .invalid => false

/-- Embedding of `decode_token(token)`: `None` on unconfigured secret; decode, catching
`InvalidTokenError` — which includes `ExpiredSignatureError` — as `None`. -/
def decode_token (secret : String) (now : Int) (tok : Jwt) : Option TokenPayload :=
  if secret = "" then none
  else
    match jwt_decode secret now tok with
    | .ok p => some p
    | .expired => none
    | .invalid => none

/-! ## Session Store: `AgentService` session map -/

/-- One stored conversation turn `{question, response, timestamp}`. -/
structure Turn where
  question : String
  response : String
  timestamp : Int
deriving DecidableEq, Repr

abbrev SessionTable := List (String × List Turn)

def sessLookup : SessionTable → String → Option (List Turn)
  | [], _ => none
  | (k, ts) :: t, sid => if k = sid then some ts else sessLookup t sid

/-- Python `self._sessions[session_id].append(turn)`, creating the key when absent. -/
def appendSession : SessionTable → String → Turn → SessionTable
  | [], sid, turn => [(sid, [turn])]
  | (k, ts) :: t, sid, turn =>
    if k = sid then (k, ts ++ [turn]) :: t else (k, ts) :: appendSession t sid turn

/-- The in-memory state of `AgentService`: the session map plus the wrapped
agent's internal conversation history (touched by `clear_session` when the
agent is initialized). -/
structure AgentServiceState where
  sessions : SessionTable
  agentInitialized : Bool
  agentHistory : List String
deriving Repr

/-- Embedding of `AgentService.clear_session`: delete the session's turns if present, clear
the agent's internal history when the agent is initialized, and return `True`
unconditionally. -/
def clear_session (st : AgentServiceState) (session_id : String) :
    Bool × AgentServiceState :=
  (true,
    { sessions := st.sessions.filter fun p => !(p.1 == session_id)
      agentInitialized := st.agentInitialized
      agentHistory := if st.agentInitialized then [] else st.agentHistory })

/-- Embedding of `AgentService.get_session_history`: `self._sessions.get(session_id, [])`. -/
def get_session_history (st : AgentServiceState) (session_id : String) : List Turn :=
  (sessLookup st.sessions session_id).getD []

/-! ## Streaming Relay: `stream_with_heartbeat` and `stream_query` -/

/-- Events produced by the upstream agent's `stream` (the Upstream Responder):
the event types consumed in `agent_service.py` are `text`, `tool_call`,
`tool_result` and `finish`. -/
inductive AgentEvent where
  | text (content : String)
  | toolCall (tool_name : String) (args : String)
  | toolResult (tool_call_id : String)
  | finish
deriving DecidableEq, Repr

/-- Items flowing through the relay queue and the heartbeat wrapper's output:
forwarded upstream events, the producer-synthesised error event, and the
consumer-synthesised heartbeat. -/
inductive RelayMsg where
  | text (content : String)
  | toolCall (tool_name : String) (args : String)
  | toolResult (tool_call_id : String)
  | finish
  | errorEv (msg : String)
  | heartbeat
deriving DecidableEq, Repr

def AgentEvent.toMsg : AgentEvent → RelayMsg
  | .text c => .text c
  | .toolCall n a => .toolCall n a
  | .toolResult i => .toolResult i
  | .finish => .finish

/-- The producer task of `stream_with_heartbeat`: push every upstream event;
on an upstream exception push a single error event; in all cases finish with
the `None` sentinel. `events` are the events the upstream yields before either
finishing normally (`failure = none`) or raising (`failure = some msg`). -/
def producer_queue (events : List AgentEvent) (failure : Option String) :
    List (Option RelayMsg) :=
  events.map (fun e => some e.toMsg)
    ++ (match failure with
        | none => []
        | some m => [some (.errorEv m)])
    ++ [none]

/-- One interaction of the consumer loop with the queue: either
`asyncio.wait_for` timed out (recording whether the producer had already set
`finished`), or an item was pulled from the queue. -/
inductive Pull where
  | timeout (finished : Bool)
  | item (e : Option RelayMsg)
deriving DecidableEq, Repr

/-- Source `heartbeat_interval = 5  # seconds`: the bounded queue wait. -/
def heartbeat_interval : Nat := 5

/-- The consumer loop of `stream_with_heartbeat`, driven by a schedule of queue
interactions: forward pulled events in order; stop at the `None` sentinel
(discarding it) or at a timeout after the producer set `finished`; emit a
synthetic heartbeat on any other timeout and continue. -/
def stream_with_heartbeat : List Pull → List RelayMsg
  | [] => []
  | .timeout finished :: rest =>
    if finished then [] else .heartbeat :: stream_with_heartbeat rest
  | .item none :: _ => []
  | .item (some e) :: rest => e :: stream_with_heartbeat rest

/-- Schedule in which every queue pull succeeds immediately (fast producer,
no timeouts). -/
def promptSchedule (q : List (Option RelayMsg)) : List Pull := q.map Pull.item

/-- The `StreamChunk` dataclass of `agent_service.py`: `{type, content}`
(metadata elided). -/
structure StreamChunkD where
  type : String
  content : Option String := none
deriving DecidableEq, Repr

/-- The event-dispatch loop of `AgentService.stream_query`, threading
`full_response` and the session map. Branches exist for the event types
`text`, `tool_call`, `tool_result`, `heartbeat` and `finish`; an `error`
event matches no branch and is dropped. On `finish` the turn is stored when a
session id is present and the response is non-empty. Returns the yielded
chunks, the session map, and the number of session writes. -/
def stream_query_go (question : String) (session_id : Option String) (now : Int) :
    List RelayMsg → String → SessionTable → List StreamChunkD × SessionTable × Nat
  | [], _, sessions => ([], sessions, 0)
  | .text c :: rest, _, sessions =>
    let r := stream_query_go question session_id now rest c sessions
    (⟨"content", some c⟩ :: r.1, r.2.1, r.2.2)
  | .toolCall n _ :: rest, full, sessions =>
    let r := stream_query_go question session_id now rest full sessions
    (⟨"tool_call", some ("Querying: " ++ n)⟩ :: r.1, r.2.1, r.2.2)
  | .toolResult _ :: rest, full, sessions =>
    let r := stream_query_go question session_id now rest full sessions
    (⟨"tool_result", none⟩ :: r.1, r.2.1, r.2.2)
  | .heartbeat :: rest, full, sessions =>
    let r := stream_query_go question session_id now rest full sessions
    (⟨"heartbeat", some "."⟩ :: r.1, r.2.1, r.2.2)
  | .finish :: rest, full, sessions =>
    let stored : Bool :=
      match session_id with
      | some _ => !(full == "")
      | none => false
    let sessions' :=
      match session_id with
      | some sid => if full == "" then sessions else appendSession sessions sid ⟨question, full, now⟩
      | none => sessions
    let r := stream_query_go question session_id now rest full sessions'
    (⟨"complete", none⟩ :: r.1, r.2.1, r.2.2 + (if stored then 1 else 0))
  | .errorEv _ :: rest, full, sessions =>
    stream_query_go question session_id now rest full sessions

/-- Embedding of `AgentService.stream_query`: when `_get_agent()` raises (`initFailure`),
the outer `except` yields a single error chunk; otherwise dispatch the
heartbeat-wrapped relay events. -/
def stream_query (question : String) (session_id : Option String) (now : Int)
    (sessions : SessionTable) (initFailure : Option String)
    (schedule : List Pull) : List StreamChunkD × SessionTable × Nat :=
  match initFailure with
  | some m => ([⟨"error", some m⟩], sessions, 0)
  | none =>
    stream_query_go question session_id now (stream_with_heartbeat schedule) "" sessions

/-! ## Gateway Orchestration: `dependencies.py` and `chat.py` -/

/-- One line of the outbound SSE channel: `data: {json}` with the payload's
`type` tag and content, or the literal `data: [DONE]` sentinel. -/
inductive SseLine where
  | data (type : String) (content : Option String)
  | done
deriving DecidableEq, Repr

/-- Configuration values read by the gateway (the `Settings` attributes used in
`dependencies.py`, `auth.py` and `chat.py`). -/
structure Settings where
  auth_enabled : Bool
  academic_tier_enabled : Bool
  auth_jwt_secret : String
  academic_daily_query_limit : Int
  has_anthropic_key : Bool
deriving Repr

/-- An `HTTPException` carrying its status code. -/
structure HttpError where
  status : Nat
deriving DecidableEq, Repr

/-- Structure `AcademicUserInfo` from `dependencies.py`. -/
structure AcademicUserInfo where
  email : PyStr
  tier : String
  queries_remaining : Int
  daily_limit : Int
deriving DecidableEq, Repr

def AcademicUserInfo.is_academic (u : AcademicUserInfo) : Bool := u.tier == "academic"

def AcademicUserInfo.has_quota (u : AcademicUserInfo) : Bool :=
  if u.is_academic then decide (u.queries_remaining > 0) else true

/-- Embedding of the `require_auth` dependency: allow everything when auth is not configured;
otherwise demand a cookie with a verifiable access token. -/
def require_auth (st : Settings) (now : Int) (access_token : Option Jwt) :
    Except HttpError Unit :=
  if !st.auth_enabled then .ok ()
  else
    match access_token with
    | none => .error ⟨401⟩
    | some t =>
      if verify_token st.auth_jwt_secret now t "access" then .ok () else .error ⟨401⟩

/-- Embedding of the `get_academic_user` dependency: anonymous unlimited access when both auth
and the academic tier are disabled; otherwise verify and decode the access
token, pass non-academic tiers through with unlimited quota, and reject an
academic user whose remaining quota is zero with 429 — before any upstream
work, usage increment or session write. -/
def get_academic_user (st : Settings) (now tz : Int) (access_token : Option Jwt)
    (usage : UsageTable) : Except HttpError AcademicUserInfo :=
  if !st.auth_enabled && !st.academic_tier_enabled then
    .ok ⟨pyCodes "anonymous", "unlimited", 999999, 0⟩
  else
    match access_token with
    | none => .error ⟨401⟩
    | some t =>
      if !verify_token st.auth_jwt_secret now t "access" then .error ⟨401⟩
      else
        match decode_token st.auth_jwt_secret now t with
        | none => .error ⟨401⟩
        | some p =>
          let email := p.email.getD []
          let tier := p.tier.getD "admin"
          if tier != "academic" then
            .ok ⟨if email = [] then pyCodes "admin" else email, tier, 999999, 0⟩
          else
            let remaining :=
              get_queries_remaining st.academic_daily_query_limit usage email now tz
            if remaining ≤ 0 then .error ⟨429⟩
            else .ok ⟨email, tier, remaining, st.academic_daily_query_limit⟩

/-- Last `text` event's content in the upstream event sequence ("" if none). -/
def lastText : List AgentEvent → String → String
  | [], acc => acc
  | .text c :: rest, _ => lastText rest c
  | _ :: rest, acc => lastText rest acc

/-- Dataclass `QueryResponse` (execution time elided). -/
structure QueryResponse where
  content : String
deriving DecidableEq, Repr

/-- Embedding of `AgentService.query`: collect the streamed text (the last `text` event's
content), append the turn to the session on success; on any exception —
including an upstream failure — return an `"Error processing query: ..."`
response instead of raising. Returns the response, the updated sessions, and
the number of session writes. -/
def agent_query (question : String) (session_id : Option String) (now : Int)
    (sessions : SessionTable) (outcome : Except String (List AgentEvent)) :
    QueryResponse × SessionTable × Nat :=
  match outcome with
  | .error msg => (⟨"Error processing query: " ++ msg⟩, sessions, 0)
  | .ok events =>
    let response := lastText events ""
    match session_id with
    | some sid => (⟨response⟩, appendSession sessions sid ⟨question, response, now⟩, 1)
    | none => (⟨response⟩, sessions, 0)

/-- Side-effect counters of one request: upstream agent invocations, quota
increments, session writes. -/
structure Effects where
  agent_calls : Nat
  increments : Nat
  session_writes : Nat
deriving DecidableEq, Repr

def noEffects : Effects := ⟨0, 0, 0⟩

structure ChatResponse where
  success : Bool
  response : String
deriving DecidableEq, Repr

/-- Handler body of `POST /chat/query`: 503 when the Anthropic key is missing;
call the agent; then increment academic usage — the agent service reports
failures as normal responses, so the increment happens whenever the handler
runs with an academic user. -/
def chat_query (st : Settings) (user : AcademicUserInfo) (now tz : Int)
    (question : String) (session_id : Option String)
    (usage : UsageTable) (sessions : SessionTable)
    (outcome : Except String (List AgentEvent)) :
    Except HttpError ChatResponse × UsageTable × SessionTable × Effects :=
  if !st.has_anthropic_key then (.error ⟨503⟩, usage, sessions, noEffects)
  else
    let r := agent_query question session_id now sessions outcome
    let usage' :=
      if user.is_academic then (increment_usage usage user.email now tz).2 else usage
    (.ok ⟨true, r.1.content⟩, usage', r.2.1,
      ⟨1, if user.is_academic then 1 else 0, r.2.2⟩)

/-- Full `POST /chat/query` request: FastAPI evaluates the `require_auth` and
`get_academic_user` dependencies before the handler; a dependency failure
aborts the request before the handler body runs. -/
def handle_query (st : Settings) (now tz : Int) (access_token : Option Jwt)
    (question : String) (session_id : Option String)
    (usage : UsageTable) (sessions : SessionTable)
    (outcome : Except String (List AgentEvent)) :
    Except HttpError ChatResponse × UsageTable × SessionTable × Effects :=
  match require_auth st now access_token with
  | .error e => (.error e, usage, sessions, noEffects)
  | .ok _ =>
    match get_academic_user st now tz access_token usage with
    | .error e => (.error e, usage, sessions, noEffects)
    | .ok user => chat_query st user now tz question session_id usage sessions outcome

/-- Loop body of `generate` in `POST /chat/stream`: forward an error chunk and
break; forward content chunks; on a complete chunk increment academic usage
and forward it; every other chunk type (`tool_call`, `tool_result`,
`heartbeat`) matches no branch and is not forwarded; always emit the
`data: [DONE]` sentinel afterwards. Returns the SSE lines, the usage table and
the number of usage increments. -/
def generate_go (isAcademic : Bool) (email : PyStr) (now tz : Int) :
    List StreamChunkD → UsageTable → List SseLine × UsageTable × Nat
  | [], usage => ([.done], usage, 0)
  | c :: rest, usage =>
    if c.type == "error" then ([.data "error" c.content, .done], usage, 0)
    else if c.type == "content" then
      let r := generate_go isAcademic email now tz rest usage
      (.data "content" c.content :: r.1, r.2.1, r.2.2)
    else if c.type == "complete" then
      let usage' := if isAcademic then (increment_usage usage email now tz).2 else usage
      let r := generate_go isAcademic email now tz rest usage'
      (.data "complete" none :: r.1, r.2.1, r.2.2 + (if isAcademic then 1 else 0))
    else generate_go isAcademic email now tz rest usage

/-- Embedding of `generate` of `POST /chat/stream`: the start event, then the chunk loop. -/
def generate (isAcademic : Bool) (email : PyStr) (now tz : Int)
    (session_id : Option String) (chunks : List StreamChunkD) (usage : UsageTable) :
    List SseLine × UsageTable × Nat :=
  let r := generate_go isAcademic email now tz chunks usage
  (.data "start" session_id :: r.1, r.2.1, r.2.2)

/-- End-to-end `POST /chat/stream` data path: `stream_query` relays the
heartbeat-wrapped producer events into chunks, `generate` serialises them to
the outbound SSE channel. Returns the SSE lines, the usage table, the session
table, and the number of usage increments. -/
def stream_pipeline (isAcademic : Bool) (email : PyStr) (now tz : Int)
    (question : String) (session_id : Option String)
    (usage : UsageTable) (sessions : SessionTable)
    (initFailure : Option String) (schedule : List Pull) :
    List SseLine × UsageTable × SessionTable × Nat :=
  let q := stream_query question session_id now sessions initFailure schedule
  let g := generate isAcademic email now tz session_id q.1 usage
  (g.1, g.2.1, q.2.1, g.2.2)

/-- Full `POST /chat/stream` request: dependencies first, then the 503 check,
then the streaming pipeline. -/
def handle_stream (st : Settings) (now tz : Int) (access_token : Option Jwt)
    (question : String) (session_id : Option String)
    (usage : UsageTable) (sessions : SessionTable)
    (initFailure : Option String) (schedule : List Pull) :
    Except HttpError (List SseLine) × UsageTable × SessionTable × Effects :=
  match require_auth st now access_token with
  | .error e => (.error e, usage, sessions, noEffects)
  | .ok _ =>
    match get_academic_user st now tz access_token usage with
    | .error e => (.error e, usage, sessions, noEffects)
    | .ok user =>
      if !st.has_anthropic_key then (.error ⟨503⟩, usage, sessions, noEffects)
      else
        let q := stream_query question session_id now sessions initFailure schedule
        let g := generate user.is_academic user.email now tz session_id q.1 usage
        (.ok g.1, g.2.1, q.2.1, ⟨1, g.2.2, q.2.2⟩)

/-- A line carrying a terminal stream event (`error` or `complete`). -/
def SseLine.isTerminal : SseLine → Bool
  | .data t _ => t == "error" || t == "complete"
  | .done => false

/-- A line carrying a heartbeat event. -/
def SseLine.isHeartbeat : SseLine → Bool
  | .data t _ => t == "heartbeat"
  | .done => false

def RelayMsg.isHeartbeat : RelayMsg → Bool
  | .heartbeat => true
  | _ => false

def StreamChunkD.isHeartbeat (c : StreamChunkD) : Bool := c.type == "heartbeat"

/-! ## Theorems -/

theorem pyLowerCode_idem (n : Nat) : pyLowerCode (pyLowerCode n) = pyLowerCode n := by
  unfold pyLowerCode
  split_ifs with h1 h2 <;> omega

theorem pyIsSpace_pyLowerCode (n : Nat) : pyIsSpace (pyLowerCode n) = pyIsSpace n := by
  unfold pyLowerCode pyIsSpace
  split_ifs with h1
  · rw [Bool.eq_iff_iff]
    simp only [Bool.or_eq_true, beq_iff_eq]
    omega
  · rfl

theorem pyLower_idem (s : PyStr) : pyLower (pyLower s) = pyLower s := by
  unfold pyLower
  rw [List.map_map]
  apply List.map_congr_left
  intro n _
  exact pyLowerCode_idem n

theorem dropWhile_map_lower (l : List Nat) :
    (l.map pyLowerCode).dropWhile pyIsSpace
      = (l.dropWhile pyIsSpace).map pyLowerCode := by
  induction l with
  | nil => rfl
  | cons a t ih =>
    by_cases h : pyIsSpace a
    · have h' : pyIsSpace (pyLowerCode a) = true := by rw [pyIsSpace_pyLowerCode]; exact h
      simp only [List.map_cons, List.dropWhile_cons_of_pos h', List.dropWhile_cons_of_pos h, ih]
    · have h' : ¬ pyIsSpace (pyLowerCode a) = true := by rw [pyIsSpace_pyLowerCode]; exact h
      simp only [List.map_cons, List.dropWhile_cons_of_neg h', List.dropWhile_cons_of_neg h]

theorem rdropWhile_map_lower (l : List Nat) :
    (l.map pyLowerCode).rdropWhile pyIsSpace
      = (l.rdropWhile pyIsSpace).map pyLowerCode := by
  unfold List.rdropWhile
  rw [← List.map_reverse, dropWhile_map_lower, ← List.map_reverse]

theorem pyLower_pyStrip (s : PyStr) : pyLower (pyStrip s) = pyStrip (pyLower s) := by
  unfold pyStrip pyLower
  rw [dropWhile_map_lower, rdropWhile_map_lower]

theorem dropWhile_rdropWhile_self (l : List Nat) (h : l.dropWhile pyIsSpace = l) :
    (l.rdropWhile pyIsSpace).dropWhile pyIsSpace = l.rdropWhile pyIsSpace := by
  obtain ⟨w, hw⟩ : ∃ w, l.rdropWhile pyIsSpace ++ w = l :=
    List.rdropWhile_prefix pyIsSpace l
  cases hz : l.rdropWhile pyIsSpace with
  | nil => rfl
  | cons a zt =>
    apply List.dropWhile_cons_of_neg
    intro ha
    rw [hz] at hw
    have hl : l = a :: (zt ++ w) := by rw [← hw]; simp
    have hdrop : l.dropWhile pyIsSpace = (zt ++ w).dropWhile pyIsSpace := by
      rw [hl]
      exact List.dropWhile_cons_of_pos ha
    rw [h, hl] at hdrop
    have hlen := congrArg List.length hdrop
    have hle := (List.dropWhile_sublist (l := zt ++ w) pyIsSpace).length_le
    simp only [List.length_cons] at hlen
    omega

theorem pyStrip_idem (s : PyStr) : pyStrip (pyStrip s) = pyStrip s := by
  unfold pyStrip
  rw [dropWhile_rdropWhile_self _ (List.dropWhile_idempotent pyIsSpace s),
    List.rdropWhile_idempotent]

theorem pyNormalize_idem (s : PyStr) : pyNormalize (pyNormalize s) = pyNormalize s := by
  unfold pyNormalize
  rw [pyLower_pyStrip, pyLower_idem, pyStrip_idem]

theorem lookupUsage_upsert_self (t : UsageTable) (e : PyStr) (d : Int) :
    lookupUsage (upsertUsage t e d) e d
      = some ((lookupUsage t e d).getD 0 + 1) := by
  induction t with
  | nil => simp [upsertUsage, lookupUsage]
  | cons r t ih =>
    by_cases h : r.email = e ∧ r.day = d
    · simp [upsertUsage, lookupUsage, h]
    · simp [upsertUsage, lookupUsage, h, ih]

theorem lookupUsage_incrementNTimes (usage : UsageTable) (e : PyStr) (now tz : Int)
    (hnone : lookupUsage usage (pyNormalize e) (pyToday now tz) = none) (N : Nat) :
    lookupUsage (incrementNTimes usage e now tz N) (pyNormalize e) (pyToday now tz)
      = if N = 0 then none else some (N : Int) := by
  induction N with
  | zero => simpa [incrementNTimes] using hnone
  | succ n ih =>
    simp only [incrementNTimes, increment_usage, lookupUsage_upsert_self]
    rcases Nat.eq_zero_or_pos n with hn | hn
    · subst hn
      simp [ih]
    · have hn' : ¬ n = 0 := Nat.pos_iff_ne_zero.mp hn
      simp only [hn', if_false] at ih
      simp only [ih, Option.getD_some]
      have : ¬ (n + 1) = 0 := by omega
      simp only [this, if_false]
      push_cast
      ring_nf

theorem sessLookup_filter_ne (t : SessionTable) (sid : String) :
    sessLookup (t.filter fun p => !(p.1 == sid)) sid = none := by
  induction t with
  | nil => rfl
  | cons p t ih =>
    by_cases h : p.1 = sid
    · simp [List.filter_cons, h, ih]
    · simp [List.filter_cons, h, ih, sessLookup]

/-- Relay-level fact: the producer never queues a heartbeat — the only events
it pushes are forwarded upstream events and its own error event. -/
theorem producer_queue_no_heartbeat (events : List AgentEvent) (failure : Option String) :
    some RelayMsg.heartbeat ∉ producer_queue events failure := by
  unfold producer_queue
  intro hmem
  rcases List.mem_append.mp hmem with h | h
  · rcases List.mem_append.mp h with h' | h'
    · rcases List.mem_map.mp h' with ⟨e, _, he⟩
      cases e <;> simp [AgentEvent.toMsg] at he
    · cases failure <;> simp at h'
  · simp at h

/-- Relay-level fact: a timeout while the producer has not finished emits a
synthetic heartbeat before whatever the consumer forwards next. -/
theorem stream_with_heartbeat_timeout_emits (rest : List Pull) :
    stream_with_heartbeat (.timeout false :: rest)
      = .heartbeat :: stream_with_heartbeat rest := rfl

/-- Relay-level fact: nothing — in particular no heartbeat — is emitted after
the sentinel is observed: the output is unaffected by the remainder of the
schedule. -/
theorem stream_with_heartbeat_stops_at_sentinel (pre post : List Pull) :
    stream_with_heartbeat (pre ++ .item none :: post) = stream_with_heartbeat pre := by
  induction pre with
  | nil => rfl
  | cons a pre ih =>
    cases a with
    | timeout finished =>
      cases finished <;> simp [stream_with_heartbeat, ih]
    | item e =>
      cases e with
      | none => rfl
      | some m => simp [stream_with_heartbeat, ih]

/-- Gateway-level fact supporting the quota design: a chunk stream containing
no `complete` chunk performs no usage increment in `generate`. -/
theorem generate_go_no_complete (isAcademic : Bool) (email : PyStr) (now tz : Int)
    (chunks : List StreamChunkD) (usage : UsageTable)
    (h : ∀ c ∈ chunks, c.type ≠ "complete") :
    (generate_go isAcademic email now tz chunks usage).2.1 = usage ∧
    (generate_go isAcademic email now tz chunks usage).2.2 = 0 := by
  induction chunks generalizing usage with
  | nil => exact ⟨rfl, rfl⟩
  | cons c rest ih =>
    have hc : c.type ≠ "complete" := h c (List.mem_cons_self c rest)
    have hr : ∀ x ∈ rest, x.type ≠ "complete" := fun x hx => h x (List.mem_cons_of_mem c hx)
    unfold generate_go
    by_cases he : c.type = "error"
    · simp [he]
    · by_cases hco : c.type = "content"
      · simpa [he, hco] using ih usage hr
      · simpa [he, hco, hc] using ih usage hr

/-- C5: with no usage row for the identity today, `remaining` equals
`daily_limit`; after `N` increments within the same day it equals
`max 0 (daily_limit - N)`; the result is never negative. -/
theorem claimC5 (limit : Int) (usage : UsageTable) (e : PyStr) (now tz : Int) (N : Nat)
    (hlim : 0 ≤ limit)
    (hnone : lookupUsage usage (pyNormalize e) (pyToday now tz) = none) :
    get_queries_remaining limit usage e now tz = limit ∧
    get_queries_remaining limit (incrementNTimes usage e now tz N) e now tz
      = max 0 (limit - (N : Int)) ∧
    0 ≤ get_queries_remaining limit (incrementNTimes usage e now tz N) e now tz := by
  have h0 : get_queries_remaining limit usage e now tz = limit := by
    unfold get_queries_remaining
    rw [hnone]
  have h2 : get_queries_remaining limit (incrementNTimes usage e now tz N) e now tz
      = max 0 (limit - (N : Int)) := by
    unfold get_queries_remaining
    rw [lookupUsage_incrementNTimes usage e now tz hnone N]
    cases N with
    | zero =>
      simp only [if_true]
      omega
    | succ n => simp
  exact ⟨h0, h2, h2 ▸ le_max_left 0 _⟩

/-- C5 witness: `daily_limit = 2`, fresh table, three increments. -/
theorem claimC5_witness :
    get_queries_remaining 2 [] (pyCodes " A@B.edu ") 5 0 = 2 ∧
    get_queries_remaining 2 (incrementNTimes [] (pyCodes " A@B.edu ") 5 0 3)
      (pyCodes " A@B.edu ") 5 0 = max 0 (2 - ((3 : Nat) : Int)) ∧
    0 ≤ get_queries_remaining 2 (incrementNTimes [] (pyCodes " A@B.edu ") 5 0 3)
      (pyCodes " A@B.edu ") 5 0 :=
  claimC5 2 [] (pyCodes " A@B.edu ") 5 0 3 (by norm_num) rfl

/-- C9: `clear_session` returns `True` unconditionally — also for a
non-existent session — and a subsequent `get_session_history` read of that
session returns the empty sequence. -/
theorem claimC9 (st : AgentServiceState) (sid : String) :
    (clear_session st sid).1 = true ∧
    get_session_history (clear_session st sid).2 sid = [] := by
  refine ⟨rfl, ?_⟩
  unfold get_session_history clear_session
  simp [sessLookup_filter_ne]

/-- C10: every `AcademicUserService` operation normalises its email argument
with `email.lower().strip()` first, so `register_email`,
`get_queries_remaining` and `increment_usage` give the same result on `e` and
on `e.lower().strip()`: case and surrounding whitespace variants share one
user record and one daily usage counter. -/
theorem claimC10 (users : UserTable) (usage : UsageTable) (e : PyStr)
    (limit now tz : Int) :
    register_email users e now = register_email users (pyStrip (pyLower e)) now ∧
    get_queries_remaining limit usage e now tz
      = get_queries_remaining limit usage (pyStrip (pyLower e)) now tz ∧
    increment_usage usage e now tz = increment_usage usage (pyStrip (pyLower e)) now tz := by
  have hn : pyNormalize (pyStrip (pyLower e)) = pyNormalize e := pyNormalize_idem e
  refine ⟨?_, ?_, ?_⟩
  · unfold register_email
    rw [hn]
  · unfold get_queries_remaining
    rw [hn]
  · unfold increment_usage
    rw [hn]

/-- Behaviour of `verify_token` on a signed token, as one boolean equation: accepted iff
the secret is configured, signed with that secret, unexpired, and of the
expected type. -/
theorem verify_token_signed (secret : String) (now : Int) (p : TokenPayload) (s ty : String) :
    verify_token secret now (.signed p s) ty
      = (!(secret == "") && (s == secret) && !(decide (p.exp < now)) && (p.type == ty)) := by
  unfold verify_token jwt_decode
  by_cases hsec : secret = ""
  · simp [hsec]
  · by_cases hs : s = secret
    · by_cases hex : p.exp < now <;> simp [hsec, hs, hex]
    · simp [hsec, hs]

/-- C6: `verify_token` fails closed — it is a total boolean function (the
embedding of "never raises") returning `false` on an expired token even with
a correct signature, on a malformed token, on a signature mismatch and on a
`type` claim mismatch; in particular access/refresh type confusion is always
rejected. -/
theorem claimC6 (secret : String) (now : Int) (p : TokenPayload) (s raw ty : String) :
    (p.exp < now → verify_token secret now (.signed p secret) ty = false) ∧
    (verify_token secret now (.malformed raw) ty = false) ∧
    (s ≠ secret → verify_token secret now (.signed p s) ty = false) ∧
    (p.type ≠ ty → verify_token secret now (.signed p s) ty = false) ∧
    (p.type = "access" → verify_token secret now (.signed p s) "refresh" = false) ∧
    (p.type = "refresh" → verify_token secret now (.signed p s) "access" = false) := by
  refine ⟨fun h => ?_, ?_, fun h => ?_, fun h => ?_, fun h => ?_, fun h => ?_⟩
  · simp [verify_token_signed, h]
  · unfold verify_token jwt_decode
    split_ifs <;> rfl
  · simp [verify_token_signed, h]
  · simp [verify_token_signed, h]
  · simp [verify_token_signed, h]
  · simp [verify_token_signed, h]

/-- C6 witness: concrete expired, malformed, wrong-secret and type-confused
tokens, each rejected. -/
theorem claimC6_witness :
    verify_token "k" 100 (.signed ⟨"access", 50, none, none⟩ "k") "access" = false ∧
    verify_token "k" 100 (.malformed "zz") "access" = false ∧
    verify_token "k" 100 (.signed ⟨"access", 200, none, none⟩ "wrong") "access" = false ∧
    verify_token "k" 100 (.signed ⟨"access", 200, none, none⟩ "k") "refresh" = false ∧
    verify_token "k" 100 (.signed ⟨"refresh", 200, none, none⟩ "k") "access" = false :=
  ⟨(claimC6 "k" 100 ⟨"access", 50, none, none⟩ "k" "zz" "access").1 (by norm_num),
   (claimC6 "k" 100 ⟨"access", 50, none, none⟩ "k" "zz" "access").2.1,
   (claimC6 "k" 100 ⟨"access", 200, none, none⟩ "wrong" "zz" "access").2.2.1 (by decide),
   (claimC6 "k" 100 ⟨"access", 200, none, none⟩ "k" "zz" "x").2.2.2.2.1 rfl,
   (claimC6 "k" 100 ⟨"refresh", 200, none, none⟩ "k" "zz" "x").2.2.2.2.2 rfl⟩

/-- C7 counterexample: a token signed with the configured secret — the
signature is valid — but expired: `decode_token` returns `none` instead of
the full claim set, because the `except InvalidTokenError` handler also
catches `ExpiredSignatureError`. -/
theorem claimC7_cex :
    decode_token "k" 100 (.signed ⟨"access", 50, none, none⟩ "k") = none ∧
    jwt_decode "k" 100 (.signed ⟨"access", 50, none, none⟩ "k") = .expired ∧
    ("k" : String) ≠ "" := by decide

/-- C7 (amended): `decode_token` returns the claim set exactly when the secret
is configured, the signature is valid and the token is unexpired; an expired
token yields `none` — expiry is conflated with invalidity. -/
theorem claimC7 (secret : String) (now : Int) (tok : Jwt) (p : TokenPayload) :
    decode_token secret now tok = some p
      ↔ (secret ≠ "" ∧ tok = .signed p secret ∧ now ≤ p.exp) := by
  by_cases hsec : secret = ""
  · simp [decode_token, hsec]
  · cases tok with
    | malformed raw => simp [decode_token, jwt_decode, hsec]
    | signed q s =>
      by_cases hs : s = secret
      · subst hs
        by_cases hex : q.exp < now
        · simp only [decode_token, jwt_decode, hsec, if_false, hex, if_true, if_pos rfl]
          constructor
          · intro hcon
            exact absurd hcon (by simp)
          · rintro ⟨-, heq, hle⟩
            obtain ⟨rfl, -⟩ := Jwt.signed.inj heq
            omega
        · simp only [decode_token, jwt_decode, hsec, if_false, hex, if_pos rfl]
          constructor
          · intro hq
            obtain rfl := Option.some.inj hq
            exact ⟨hsec, rfl, by omega⟩
          · rintro ⟨-, heq, -⟩
            obtain ⟨rfl, -⟩ := Jwt.signed.inj heq
            rfl
      · simp only [decode_token, jwt_decode, hsec, if_false, hs]
        constructor
        · intro hcon
          exact absurd hcon (by simp)
        · rintro ⟨-, heq, -⟩
          obtain ⟨-, rfl⟩ := Jwt.signed.inj heq
          exact absurd rfl hs

/-- C3: rejected requests perform no upstream call, no quota increment and no
session write — on both gateway endpoints, `POST /chat/query`
(`handle_query`) and `POST /chat/stream` (`handle_stream`). (a) When auth (or
the academic tier) is enabled, a request whose access token is missing or
unverifiable is rejected with 401, leaving the usage and session tables
untouched and all effect counters at zero; (b) an authenticated academic
identity whose remaining quota is zero is rejected with 429 the same way,
before the Upstream Responder is invoked. -/
theorem claimC3 (st : Settings) (now tz : Int) (tok : Option Jwt)
    (question : String) (session_id : Option String)
    (usage : UsageTable) (sessions : SessionTable)
    (outcome : Except String (List AgentEvent))
    (initFailure : Option String) (schedule : List Pull) :
    ((st.auth_enabled = true ∨ st.academic_tier_enabled = true) →
      (∀ t, tok = some t → verify_token st.auth_jwt_secret now t "access" = false) →
      handle_query st now tz tok question session_id usage sessions outcome
        = (.error ⟨401⟩, usage, sessions, noEffects) ∧
      handle_stream st now tz tok question session_id usage sessions initFailure schedule
        = (.error ⟨401⟩, usage, sessions, noEffects)) ∧
    (∀ p, tok = some (.signed p st.auth_jwt_secret) →
      (st.auth_enabled = true ∨ st.academic_tier_enabled = true) →
      st.auth_jwt_secret ≠ "" → p.type = "access" → now ≤ p.exp →
      p.tier = some "academic" →
      get_queries_remaining st.academic_daily_query_limit usage (p.email.getD []) now tz ≤ 0 →
      handle_query st now tz tok question session_id usage sessions outcome
        = (.error ⟨429⟩, usage, sessions, noEffects) ∧
      handle_stream st now tz tok question session_id usage sessions initFailure schedule
        = (.error ⟨429⟩, usage, sessions, noEffects)) := by
  constructor
  · intro hen hbad
    have hkey : require_auth st now tok = .error ⟨401⟩ ∨
        (require_auth st now tok = .ok () ∧
         get_academic_user st now tz tok usage = .error ⟨401⟩) := by
      cases hauth : st.auth_enabled with
      | true =>
        left
        unfold require_auth
        cases tok with
        | none => simp [hauth]
        | some t => simp [hauth, hbad t rfl]
      | false =>
        right
        have hacad : st.academic_tier_enabled = true := by
          rcases hen with h | h
          · rw [hauth] at h; exact absurd h (by simp)
          · exact h
        refine ⟨by unfold require_auth; simp [hauth], ?_⟩
        unfold get_academic_user
        cases tok with
        | none => simp [hauth, hacad]
        | some t => simp [hauth, hacad, hbad t rfl]
    rcases hkey with h | ⟨h1, h2⟩
    · constructor
      · unfold handle_query
        rw [h]
      · unfold handle_stream
        rw [h]
    · constructor
      · unfold handle_query
        rw [h1, h2]
      · unfold handle_stream
        rw [h1, h2]
  · rintro p rfl hen hsec htype hexp htier hrem
    have hnx : ¬ p.exp < now := by omega
    have hver : verify_token st.auth_jwt_secret now (.signed p st.auth_jwt_secret) "access"
        = true := by
      rw [verify_token_signed]
      simp [hsec, htype, hnx]
    have hdec : decode_token st.auth_jwt_secret now (.signed p st.auth_jwt_secret)
        = some p := by
      unfold decode_token jwt_decode
      simp [hsec, hnx]
    have hra : require_auth st now (some (.signed p st.auth_jwt_secret)) = .ok () := by
      unfold require_auth
      cases hauth : st.auth_enabled with
      | true => simp [hauth, hver]
      | false => simp [hauth]
    have hga : get_academic_user st now tz (some (.signed p st.auth_jwt_secret)) usage
        = .error ⟨429⟩ := by
      unfold get_academic_user
      cases hauth : st.auth_enabled with
      | true => simp [hauth, hver, hdec, htier, hrem]
      | false =>
        have hacad : st.academic_tier_enabled = true := by
          rcases hen with h | h
          · rw [hauth] at h; exact absurd h (by simp)
          · exact h
        simp [hauth, hacad, hver, hdec, htier, hrem]
    constructor
    · unfold handle_query
      rw [hra, hga]
    · unfold handle_stream
      rw [hra, hga]

/-- C3 witness: a missing token is rejected with 401 and an exhausted academic
identity with 429, on both the query and the stream endpoint, each with zero
side effects. -/
theorem claimC3_witness :
    (handle_query ⟨true, true, "k", 2, true⟩ 0 0 none "q" none [] [] (.error "x")
      = (.error ⟨401⟩, [], [], noEffects) ∧
     handle_stream ⟨true, true, "k", 2, true⟩ 0 0 none "q" none [] [] none []
      = (.error ⟨401⟩, [], [], noEffects)) ∧
    (handle_query ⟨true, true, "k", 2, true⟩ 0 0
        (some (.signed ⟨"access", 100, some [97], some "academic"⟩ "k")) "q" none
        [⟨[97], 0, 2⟩] [] (.error "x")
      = (.error ⟨429⟩, [⟨[97], 0, 2⟩], [], noEffects) ∧
     handle_stream ⟨true, true, "k", 2, true⟩ 0 0
        (some (.signed ⟨"access", 100, some [97], some "academic"⟩ "k")) "q" none
        [⟨[97], 0, 2⟩] [] none []
      = (.error ⟨429⟩, [⟨[97], 0, 2⟩], [], noEffects)) :=
  ⟨(claimC3 ⟨true, true, "k", 2, true⟩ 0 0 none "q" none [] [] (.error "x") none []).1
      (Or.inl rfl) (fun t ht => by cases ht),
   (claimC3 ⟨true, true, "k", 2, true⟩ 0 0
        (some (.signed ⟨"access", 100, some [97], some "academic"⟩ "k")) "q" none
        [⟨[97], 0, 2⟩] [] (.error "x") none []).2
      ⟨"access", 100, some [97], some "academic"⟩ rfl (Or.inl rfl) (by decide) rfl
      (by decide) rfl (by decide)⟩

/-- C1: evaluation at the failing input — the upstream producer fails
("boom") before yielding any event. The producer queues a single error event
followed by the sentinel, but the dispatch in `stream_query` has no branch
for error events and drops it, so the outbound SSE stream carries zero
terminal events (no `error`, no `complete`) — only the start line and the
`[DONE]` sentinel — where the claim requires exactly one `error` event. -/
theorem claimC1_bug :
    producer_queue [] (some "boom") = [some (.errorEv "boom"), none] ∧
    stream_pipeline true [97] 0 0 "q" none [] [] none
        (promptSchedule (producer_queue [] (some "boom")))
      = ([.data "start" none, .done], [], [], 0) ∧
    (stream_pipeline true [97] 0 0 "q" none [] [] none
        (promptSchedule (producer_queue [] (some "boom")))).1.countP SseLine.isTerminal
      = 0 := by
  decide

/-- C2: evaluation at the failing input — an authenticated academic user whose
`/chat/query` request fails upstream (the agent raises). `AgentService.query`
swallows the exception into an error-text response, the handler cannot tell
it from success and still increments usage: the identity's counter moves from
absent to 1 although the query failed. -/
theorem claimC2_bug :
    handle_query ⟨true, true, "k", 50, true⟩ 0 0
        (some (.signed ⟨"access", 100, some [97], some "academic"⟩ "k")) "q" none
        [] [] (.error "agent failure")
      = (.ok ⟨true, "Error processing query: agent failure"⟩,
          [⟨[97], 0, 1⟩], [], ⟨1, 1, 0⟩) := by
  rfl

/-- C4: evaluation at the failing configuration — server timezone UTC+1
(`tz = 3600`), identity `[97]` with `query_count = daily_limit = 2` recorded
for local day 1. Crossing the UTC midnight `86399 → 86400` does not reset
`remaining` (it stays 0 instead of returning to `daily_limit`), while the
counter does reset across `82799 → 82800`, which is not a UTC day boundary:
the code keys usage on the server-local `date.today()`, not on the UTC date
promised by its own 429 hint. -/
theorem claimC4_bug :
    utcDay 86399 = 0 ∧ utcDay 86400 = 1 ∧
    get_queries_remaining 2 [⟨[97], 1, 2⟩] [97] 86399 3600 = 0 ∧
    get_queries_remaining 2 [⟨[97], 1, 2⟩] [97] 86400 3600 = 0 ∧
    utcDay 82799 = utcDay 82800 ∧
    get_queries_remaining 2 [⟨[97], 1, 2⟩] [97] 82799 3600 = 2 ∧
    get_queries_remaining 2 [⟨[97], 1, 2⟩] [97] 82800 3600 = 0 := by
  decide

/-- C8: evaluation at the failing input — a slow producer (one queue-wait
timeout before the events arrive). The relay consumer synthesizes a heartbeat
and `stream_query` yields a heartbeat chunk before the next real event, but
the SSE `generate` loop forwards only `error`, `content` and `complete`
chunks, so no heartbeat ever reaches the outbound channel. -/
theorem claimC8_bug :
    stream_with_heartbeat
        [.timeout false, .item (some (.text "hi")), .item (some .finish), .item none]
      = [.heartbeat, .text "hi", .finish] ∧
    (stream_query "q" none 0 [] none
        [.timeout false, .item (some (.text "hi")), .item (some .finish), .item none]).1
      = [⟨"heartbeat", some "."⟩, ⟨"content", some "hi"⟩, ⟨"complete", none⟩] ∧
    (stream_pipeline true [97] 0 0 "q" none [] [] none
        [.timeout false, .item (some (.text "hi")), .item (some .finish), .item none]).1
      = [.data "start" none, .data "content" (some "hi"), .data "complete" none, .done] ∧
    (stream_pipeline true [97] 0 0 "q" none [] [] none
        [.timeout false, .item (some (.text "hi")), .item (some .finish),
          .item none]).1.countP SseLine.isHeartbeat
      = 0 := by
  decide

end App
